import Mathlib

/-!
# Formal model of `eventlet/event.py`

A shallow embedding of the `Event` synchronization primitive from
`eventlet/event.py`. An `Event` lets any number of coroutines wait for a
single value (or exception) delivered once by `send` / `send_exception`,
and can be rearmed with `reset`.

Modelling choices, all read off the source:
* `_result` is `Option (PyVal α)`: Lean's `none` models the `NOT_USED`
  sentinel object (identity-compared in the source via
  `self._result is NOT_USED`), and `some v` models a stored Python value,
  where `PyVal α` distinguishes Python's `None` from a proper value of `α`
  (`send`'s default argument, and `send_exception`, store `None`).
* `_exc` is `Option (List ε)`: the source normalizes a non-`None`,
  non-tuple `exc` argument to a one-element tuple, so after `send` the
  field is either `None` or a tuple of `throw` arguments.
* `_waiters` is a `Finset τ` of task (greenlet) identities.
* The scheduler ("hub") is kept external: `send` returns the list of
  callbacks it enqueued via `hub.schedule_call_global`, `wait` returns a
  `WaitOutcome` saying whether it returned, raised, or suspended into
  `hub.switch()`, and the resumption of a suspended waiter (the value the
  blocking `switch()` call produces, or the exception it raises) is an
  explicit `Resumption` argument.
-/

namespace Eventlet

/-- A Python value as stored in `Event._result`: either the Python `None`
object (the default `result` argument of `send`, and what
`send_exception` stores) or a proper value of type `α`.  Distinct from
the `NOT_USED` sentinel, which is modelled by `Option` at the field
level. -/
inductive PyVal (α : Type) where
  | pyNone : PyVal α
  | obj (a : α) : PyVal α
deriving DecidableEq

/-- The `exc` argument accepted by `Event.send`: a Python caller passes
either a single exception object or a tuple of `throw` arguments
(type, value, traceback). -/
inductive ExcArg (ε : Type) where
  | single (e : ε) : ExcArg ε
  | tup (es : List ε) : ExcArg ε
deriving DecidableEq

/-- The tuple of `throw` arguments an `ExcArg` turns into:
`if exc is not None and not isinstance(exc, tuple): exc = (exc, )`. -/
def ExcArg.toThrowArgs {ε : Type} : ExcArg ε → List ε
  | .single e => [e]
  | .tup es => es

/-- Normalization of the whole `exc` argument performed by `Event.send`
before storing it into `self._exc`.  `None` stays `None`. -/
def normalizeExc {ε : Type} : Option (ExcArg ε) → Option (List ε)
  | none => none
  | some a => some a.toThrowArgs

/-- The mutable state of an `Event` object: fields `_result`, `_exc` and
`_waiters` of the Python class.  `_result = none` models
`self._result is NOT_USED`. -/
structure EventState (α ε τ : Type) where
  _result : Option (PyVal α)
  _exc : Option (List ε)
  _waiters : Finset τ
deriving DecidableEq

/-- `Event.__init__`: `self._waiters = set()` then `self.reset()`.  The
`reset` call succeeds (the class attribute `_result = None` is not the
sentinel) and leaves `_result = NOT_USED`, `_exc = None`. -/
def Event.new (α ε τ : Type) : EventState α ε τ :=
  { _result := none, _exc := none, _waiters := ∅ }

/-- `Event.ready()`: `self._result is not NOT_USED`. -/
def ready {α ε τ : Type} (s : EventState α ε τ) : Bool :=
  s._result.isSome

/-- `Event.has_exception()`: `self._exc is not None`. -/
def has_exception {α ε τ : Type} (s : EventState α ε τ) : Bool :=
  s._exc.isSome

/-- `Event.has_result()`: `self._result is not NOT_USED and self._exc is None`. -/
def has_result {α ε τ : Type} (s : EventState α ε τ) : Bool :=
  s._result.isSome && s._exc.isNone

/-- `Event.reset()`: asserts the event has already fired
(`self._result is not NOT_USED`), then clears `_result` back to the
sentinel and `_exc` to `None`.  The first component is the assertion
message when the assert fires (in which case the state is returned
unchanged: the assert raises before any mutation). -/
def reset {α ε τ : Type} (s : EventState α ε τ) :
    Option String × EventState α ε τ :=
  match s._result with
  | none => (some "Trying to re-reset() a fresh event.", s)
  | some _ => (none, { s with _result := none, _exc := none })

/-- A callback enqueued on the hub by `send` via
`hub.schedule_call_global(0, self._do_send, self._result, self._exc,
self._waiters.copy())`: zero delay, the just-stored result and
(normalized) exception, and a snapshot copy of the waiter set. -/
structure SchedCall (α ε τ : Type) where
  delay : Nat
  result : PyVal α
  exc : Option (List ε)
  snapshot : Finset τ
deriving DecidableEq

/-- What a call to `Event.send` produces: the assertion message if the
re-send assert fired (state then unchanged, nothing scheduled), the
state of the event after the call, and the list of callbacks enqueued on
the hub. -/
structure SendRes (α ε τ : Type) where
  err : Option String
  state : EventState α ε τ
  scheduled : List (SchedCall α ε τ)
deriving DecidableEq

/-- `Event.send(result=None, exc=None)`: asserts
`self._result is NOT_USED`, stores the result, normalizes and stores the
exception, and — only if the waiter set is non-empty (`if self._waiters:`)
— enqueues a single zero-delay `_do_send` callback carrying the stored
outcome and a snapshot copy of the waiters.  It performs no switch
itself. -/
def send {α ε τ : Type} [DecidableEq τ] (s : EventState α ε τ)
    (result : PyVal α) (exc : Option (ExcArg ε)) : SendRes α ε τ :=
  match s._result with
  | some _ => ⟨some "Trying to re-send() an already-triggered event.", s, []⟩
  | none =>
    let e := normalizeExc exc
    let s' : EventState α ε τ := { s with _result := some result, _exc := e }
    ⟨none, s',
      if s'._waiters.Nonempty then [⟨0, result, e, s'._waiters⟩] else []⟩

/-- `Event.send_exception(*args)`: `return self.send(None, args)` — the
stored result is Python `None` and the whole argument tuple becomes the
exception. -/
def send_exception {α ε τ : Type} [DecidableEq τ] (s : EventState α ε τ)
    (args : List ε) : SendRes α ε τ :=
  send s PyVal.pyNone (some (ExcArg.tup args))

/-- How a single call to `Event.wait` behaves from the caller's point of
view: it returns a value immediately, raises the stored exception
immediately (`current.throw(*self._exc)`), or registers the caller and
suspends into `hubs.get_hub().switch()`. -/
inductive WaitOutcome (α ε : Type) where
  | ret (v : PyVal α) : WaitOutcome α ε
  | raise (es : List ε) : WaitOutcome α ε
  | suspended : WaitOutcome α ε
deriving DecidableEq

/-- `Event.wait()` up to its first suspension point.  If `_result` is
still the sentinel, the current task is added to `_waiters` and the task
suspends into the hub; otherwise the stored exception is thrown, or the
stored result returned, with the state untouched. -/
def wait {α ε τ : Type} [DecidableEq τ] (s : EventState α ε τ)
    (current : τ) : EventState α ε τ × WaitOutcome α ε :=
  match s._result with
  | none => ({ s with _waiters := insert current s._waiters }, .suspended)
  | some v =>
    match s._exc with
    | some es => (s, .raise es)
    | none => (s, .ret v)

/-- The ways the blocking `hubs.get_hub().switch()` call inside `wait`
can come back: the switch returns a value (a waker called
`waiter.switch(result)`), the switch raises a delivered exception (a
waker called `waiter.throw(*exc)`), or the switch itself raises some
other exception, e.g. an externally injected cancellation. -/
inductive Resumption (α ε : Type) where
  | value (v : PyVal α) : Resumption α ε
  | error (es : List ε) : Resumption α ε
  | cancelled (e : ε) : Resumption α ε
deriving DecidableEq

/-- The rest of `Event.wait()` once the suspended task is resumed: the
`finally` block discards the current task from `_waiters` on every path,
and then the value the switch produced is returned, or the exception the
switch raised propagates.  `s` is the event state at resumption time
(other tasks may have run since the suspension). -/
def waitResume {α ε τ : Type} [DecidableEq τ] (s : EventState α ε τ)
    (current : τ) (r : Resumption α ε) :
    EventState α ε τ × WaitOutcome α ε :=
  ({ s with _waiters := s._waiters.erase current },
   match r with
   | .value v => .ret v
   | .error es => .raise es
   | .cancelled e => .raise [e])

/-- `Event.poll(notready=None)`: `if self.ready(): return self.wait()`,
else return the default.  The pair is (state after the call, outcome). -/
def poll {α ε τ : Type} [DecidableEq τ] (s : EventState α ε τ)
    (current : τ) (notready : PyVal α) :
    EventState α ε τ × WaitOutcome α ε :=
  if ready s then wait s current else (s, .ret notready)

/-- `Event.poll_exception(notready=None)`: `if self.has_exception():
return self.wait()`, else return the default. -/
def poll_exception {α ε τ : Type} [DecidableEq τ] (s : EventState α ε τ)
    (current : τ) (notready : PyVal α) :
    EventState α ε τ × WaitOutcome α ε :=
  if has_exception s then wait s current else (s, .ret notready)

/-- `Event.poll_result(notready=None)`: `if self.has_result():
return self.wait()`, else return the default. -/
def poll_result {α ε τ : Type} [DecidableEq τ] (s : EventState α ε τ)
    (current : τ) (notready : PyVal α) :
    EventState α ε τ × WaitOutcome α ε :=
  if has_result s then wait s current else (s, .ret notready)

/-- What `_do_send` does to one waiter it decides to wake:
`waiter.switch(result)` when no exception was delivered, else
`waiter.throw(*exc)`. -/
inductive WakeAction (α ε τ : Type) where
  | switch (w : τ) (v : PyVal α) : WakeAction α ε τ
  | throwTo (w : τ) (es : List ε) : WakeAction α ε τ
deriving DecidableEq

/-- The task a `WakeAction` is directed at. -/
def WakeAction.target {α ε τ : Type} : WakeAction α ε τ → τ
  | .switch w _ => w
  | .throwTo w _ => w

/-- The action `_do_send` performs on a waiter that passed the live
membership check: `if exc is None: waiter.switch(result) else:
waiter.throw(*exc)`. -/
def wakeFor {α ε τ : Type} (result : PyVal α) (exc : Option (List ε))
    (w : τ) : WakeAction α ε τ :=
  match exc with
  | none => .switch w result
  | some es => .throwTo w es

/-- `Event._do_send(result, exc, waiters)`: pops tasks off the snapshot
one at a time (the snapshot list argument fixes the otherwise arbitrary
`set.pop()` order) and wakes each one only if it is still a member of
the live `self._waiters` set.  A woken waiter immediately runs the
`finally` clause of its own `wait()` — discarding itself from the live
set — before control comes back to the sweep loop; a task no longer in
the live set is skipped.  Returns the live waiter set after the sweep
and the list of wake actions performed, in order. -/
def do_send {α ε τ : Type} [DecidableEq τ] (result : PyVal α)
    (exc : Option (List ε)) :
    List τ → Finset τ → Finset τ × List (WakeAction α ε τ)
  | [], live => (live, [])
  | w :: rest, live =>
    if w ∈ live then
      let r := do_send result exc rest (live.erase w)
      (r.1, wakeFor result exc w :: r.2)
    else do_send result exc rest live

/-- The states of an `Event` reachable through the public operations:
construction, `send` (succeeding or failing), `send_exception`, `reset`,
and `wait` together with any resumption of a suspended waiter. -/
inductive Reachable {α ε τ : Type} [DecidableEq τ] :
    EventState α ε τ → Prop where
  | init : Reachable (Event.new α ε τ)
  | send_step (s : EventState α ε τ) (v : PyVal α) (e : Option (ExcArg ε)) :
      Reachable s → Reachable (send s v e).state
  | send_exception_step (s : EventState α ε τ) (args : List ε) :
      Reachable s → Reachable (send_exception s args).state
  | reset_step (s : EventState α ε τ) :
      Reachable s → Reachable (reset s).2
  | wait_step (s : EventState α ε τ) (t : τ) :
      Reachable s → Reachable (wait s t).1
  | wait_resume_step (s : EventState α ε τ) (t : τ) (r : Resumption α ε) :
      Reachable s → Reachable (waitResume s t r).1

/-! ## Theorems -/

/-- `(wakeFor result exc w)` is directed at `w`, whichever branch the
exception test takes. -/
theorem wakeFor_target {α ε τ : Type} (result : PyVal α)
    (exc : Option (List ε)) (w : τ) :
    (wakeFor result exc w).target = w := by
  cases exc <;> rfl

/-- Every wake action the sweep performs is directed at a task that was
in the live waiter set when the sweep started and in the snapshot, and
no task is woken twice: once woken, a waiter has removed itself from the
live set, so the membership check fails for it from then on. -/
theorem do_send_spec {α ε τ : Type} [DecidableEq τ] (result : PyVal α)
    (exc : Option (List ε)) :
    ∀ (snapshot : List τ) (live : Finset τ),
      (∀ a ∈ (do_send result exc snapshot live).2,
        a.target ∈ live ∧ a.target ∈ snapshot) ∧
      ((do_send result exc snapshot live).2.map WakeAction.target).Nodup := by
  intro snapshot
  induction snapshot with
  | nil => intro live; simp [do_send]
  | cons w rest ih =>
    intro live
    by_cases hw : w ∈ live
    · obtain ⟨ih1, ih2⟩ := ih (live.erase w)
      simp only [do_send, if_pos hw]
      constructor
      · intro a ha
        rcases List.mem_cons.mp ha with h | h
        · subst h
          exact ⟨by simpa [wakeFor_target] using hw,
            by simp [wakeFor_target]⟩
        · obtain ⟨h1, h2⟩ := ih1 a h
          exact ⟨Finset.mem_of_mem_erase h1, List.mem_cons_of_mem w h2⟩
      · rw [List.map_cons, wakeFor_target, List.nodup_cons]
        refine ⟨?_, ih2⟩
        intro hmem
        obtain ⟨a, ha, hta⟩ := List.mem_map.mp hmem
        have h1 := (ih1 a ha).1
        rw [hta] at h1
        exact absurd h1 (Finset.not_mem_erase w live)
    · simp only [do_send, if_neg hw]
      obtain ⟨ih1, ih2⟩ := ih live
      exact ⟨fun a ha => ⟨(ih1 a ha).1, List.mem_cons_of_mem w (ih1 a ha).2⟩,
        ih2⟩

/-- Claim C6: the deferred wake sweep never wakes a task that is absent
from the live waiter set: every wake action it performs is directed at a
task that was both in the delivery-time snapshot and still a live
waiter, a task that vacated the waiter set between snapshot and sweep is
skipped, and no task is woken twice. -/
theorem sweep_skips_vacated_waiters {α ε τ : Type} [DecidableEq τ]
    (result : PyVal α) (exc : Option (List ε)) (snapshot : List τ)
    (live : Finset τ) (a : WakeAction α ε τ)
    (ha : a ∈ (do_send result exc snapshot live).2) :
    a.target ∈ live ∧ a.target ∈ snapshot ∧
    ((do_send result exc snapshot live).2.map WakeAction.target).Nodup := by
  obtain ⟨h1, h2⟩ := do_send_spec result exc snapshot live
  exact ⟨(h1 a ha).1, (h1 a ha).2, h2⟩

theorem sweep_skips_vacated_waiters_witness :
    (WakeAction.switch 3 (PyVal.obj 1) : WakeAction Nat Nat Nat).target
      ∈ ({3} : Finset Nat) ∧
    (WakeAction.switch 3 (PyVal.obj 1) : WakeAction Nat Nat Nat).target
      ∈ [3, 4] ∧
    (((do_send (PyVal.obj 1) (none : Option (List Nat)) [3, 4]
        ({3} : Finset Nat)).2.map WakeAction.target).Nodup) :=
  sweep_skips_vacated_waiters (PyVal.obj 1) none [3, 4] {3}
    (WakeAction.switch 3 (PyVal.obj 1)) (by decide)

/-- Claim C1: for every value v, calling `send(v)` on an Event whose
outcome is Unset makes `ready()` and `has_result()` return true, and
every subsequent `wait()` call returns exactly v immediately — the state
is untouched (no waiter registered, no scheduler interaction) and the
outcome is a direct return of v, not a suspension. -/
theorem send_value_then_wait {α ε τ : Type} [DecidableEq τ]
    (s : EventState α ε τ) (v : PyVal α) (t : τ) (h : s._result = none) :
    (send s v none).err = none ∧
    ready (send s v none).state = true ∧
    has_result (send s v none).state = true ∧
    wait (send s v none).state t = ((send s v none).state, WaitOutcome.ret v) := by
  obtain ⟨r, ex, ws⟩ := s
  subst h
  exact ⟨rfl, rfl, rfl, rfl⟩

theorem send_value_then_wait_witness :
    (send (Event.new Nat Nat Nat) (PyVal.obj 7) none).err = none ∧
    ready (send (Event.new Nat Nat Nat) (PyVal.obj 7) none).state = true ∧
    has_result (send (Event.new Nat Nat Nat) (PyVal.obj 7) none).state = true ∧
    wait (send (Event.new Nat Nat Nat) (PyVal.obj 7) none).state 0 =
      ((send (Event.new Nat Nat Nat) (PyVal.obj 7) none).state,
        WaitOutcome.ret (PyVal.obj 7)) :=
  send_value_then_wait (Event.new Nat Nat Nat) (PyVal.obj 7) 0 rfl

/-- Claim C2: for every error e, after `send_exception(e)` on an Event
whose outcome is Unset, `has_exception()` returns true and every
subsequent `wait()` propagates exactly e (`current.throw(e)`) rather
than returning a value. -/
theorem send_exception_then_wait {α ε τ : Type} [DecidableEq τ]
    (s : EventState α ε τ) (e : ε) (t : τ) (h : s._result = none) :
    (send_exception s [e]).err = none ∧
    has_exception (send_exception s [e]).state = true ∧
    wait (send_exception s [e]).state t =
      ((send_exception s [e]).state, WaitOutcome.raise [e]) := by
  obtain ⟨r, ex, ws⟩ := s
  subst h
  exact ⟨rfl, rfl, rfl⟩

theorem send_exception_then_wait_witness :
    (send_exception (Event.new Nat Nat Nat) [5]).err = none ∧
    has_exception (send_exception (Event.new Nat Nat Nat) [5]).state = true ∧
    wait (send_exception (Event.new Nat Nat Nat) [5]).state 0 =
      ((send_exception (Event.new Nat Nat Nat) [5]).state,
        WaitOutcome.raise [5]) :=
  send_exception_then_wait (Event.new Nat Nat Nat) 5 0 rfl

/-- Claim C3: `send` on an armed Event enqueues exactly one scheduler
callback when the waiter set is non-empty (carrying the outcome and a
snapshot of the waiters) and zero callbacks when it is empty; it sets
the outcome synchronously, leaves the waiter set untouched, and performs
no wake action itself. -/
theorem send_schedules_sweep {α ε τ : Type} [DecidableEq τ]
    (s : EventState α ε τ) (v : PyVal α) (exc : Option (ExcArg ε))
    (h : s._result = none) :
    (send s v exc).err = none ∧
    (send s v exc).state._result = some v ∧
    (send s v exc).state._exc = normalizeExc exc ∧
    (send s v exc).state._waiters = s._waiters ∧
    (send s v exc).scheduled =
      (if s._waiters.Nonempty
        then [⟨0, v, normalizeExc exc, s._waiters⟩] else []) ∧
    (send s v exc).scheduled.length =
      (if s._waiters.Nonempty then 1 else 0) := by
  obtain ⟨r, ex, ws⟩ := s
  subst h
  refine ⟨rfl, rfl, rfl, rfl, rfl, ?_⟩
  by_cases hw : ws.Nonempty <;> simp [send, hw]

theorem send_schedules_sweep_witness :
    (send (wait (Event.new Nat Nat Nat) 3).1 (PyVal.obj 9) none).err = none ∧
    (send (wait (Event.new Nat Nat Nat) 3).1 (PyVal.obj 9) none).state._result
      = some (PyVal.obj 9) ∧
    (send (wait (Event.new Nat Nat Nat) 3).1 (PyVal.obj 9) none).state._exc
      = normalizeExc none ∧
    (send (wait (Event.new Nat Nat Nat) 3).1 (PyVal.obj 9) none).state._waiters
      = (wait (Event.new Nat Nat Nat) 3).1._waiters ∧
    (send (wait (Event.new Nat Nat Nat) 3).1 (PyVal.obj 9) none).scheduled =
      (if (wait (Event.new Nat Nat Nat) 3).1._waiters.Nonempty
        then [⟨0, PyVal.obj 9, normalizeExc none,
                (wait (Event.new Nat Nat Nat) 3).1._waiters⟩] else []) ∧
    (send (wait (Event.new Nat Nat Nat) 3).1 (PyVal.obj 9) none).scheduled.length =
      (if (wait (Event.new Nat Nat Nat) 3).1._waiters.Nonempty then 1 else 0) :=
  send_schedules_sweep (wait (Event.new Nat Nat Nat) 3).1 (PyVal.obj 9) none rfl

/-- Claim C4: `send` raises its misuse error exactly when `_result` is
not the Unset sentinel at call time, regardless of the arguments, and
`reset` raises its misuse error exactly when `_result` is the sentinel;
both are reported synchronously in the call's own return. -/
theorem misuse_errors_iff {α ε τ : Type} [DecidableEq τ]
    (s : EventState α ε τ) (v : PyVal α) (exc : Option (ExcArg ε)) :
    (send s v exc).err.isSome = s._result.isSome ∧
    (reset s).1.isSome = s._result.isNone := by
  obtain ⟨r, ex, ws⟩ := s
  cases r <;> simp [send, reset]

theorem misuse_errors_iff_witness :
    (send (Event.new Nat Nat Nat) (PyVal.obj 1) none).err.isSome =
      (Event.new Nat Nat Nat)._result.isSome ∧
    (reset (Event.new Nat Nat Nat)).1.isSome =
      (Event.new Nat Nat Nat)._result.isNone :=
  misuse_errors_iff (Event.new Nat Nat Nat) (PyVal.obj 1) none

/-- Claim C5: a second `send` without an intervening `reset` fails with
the misuse error and is atomic: the state after the failing call is
exactly the state the first `send` produced (outcome and waiter set
unchanged), and nothing is scheduled. -/
theorem second_send_fails_atomically {α ε τ : Type} [DecidableEq τ]
    (s : EventState α ε τ) (v₁ : PyVal α) (e₁ : Option (ExcArg ε))
    (v₂ : PyVal α) (e₂ : Option (ExcArg ε)) (h : s._result = none) :
    (send (send s v₁ e₁).state v₂ e₂).err =
      some "Trying to re-send() an already-triggered event." ∧
    (send (send s v₁ e₁).state v₂ e₂).state = (send s v₁ e₁).state ∧
    (send (send s v₁ e₁).state v₂ e₂).scheduled = [] := by
  obtain ⟨r, ex, ws⟩ := s
  subst h
  exact ⟨rfl, rfl, rfl⟩

theorem second_send_fails_atomically_witness :
    (send (send (Event.new Nat Nat Nat) (PyVal.obj 1) none).state
        (PyVal.obj 2) none).err =
      some "Trying to re-send() an already-triggered event." ∧
    (send (send (Event.new Nat Nat Nat) (PyVal.obj 1) none).state
        (PyVal.obj 2) none).state =
      (send (Event.new Nat Nat Nat) (PyVal.obj 1) none).state ∧
    (send (send (Event.new Nat Nat Nat) (PyVal.obj 1) none).state
        (PyVal.obj 2) none).scheduled = [] :=
  second_send_fails_atomically (Event.new Nat Nat Nat) (PyVal.obj 1) none
    (PyVal.obj 2) none rfl

/-- Claim C7: a `wait()` call on an Unset Event adds the calling task to
the waiter set before suspending, and on every resumption path — normal
resume with a value, an error delivered by `throw`, or an exception such
as cancellation raised out of the suspension itself — the `finally`
clause removes the calling task from the waiter set before `wait`
returns or propagates. -/
theorem wait_waiter_bookkeeping {α ε τ : Type} [DecidableEq τ]
    (s s' : EventState α ε τ) (t : τ) (r : Resumption α ε)
    (h : s._result = none) :
    (wait s t).2 = WaitOutcome.suspended ∧
    (wait s t).1._waiters = insert t s._waiters ∧
    t ∈ (wait s t).1._waiters ∧
    (waitResume s' t r).1._waiters = s'._waiters.erase t ∧
    t ∉ (waitResume s' t r).1._waiters := by
  obtain ⟨rr, ex, ws⟩ := s
  subst h
  refine ⟨rfl, rfl, ?_, rfl, ?_⟩
  · simp [wait]
  · simp [waitResume]

theorem wait_waiter_bookkeeping_witness :
    (wait (Event.new Nat Nat Nat) 4).2 = WaitOutcome.suspended ∧
    (wait (Event.new Nat Nat Nat) 4).1._waiters =
      insert 4 (Event.new Nat Nat Nat)._waiters ∧
    4 ∈ (wait (Event.new Nat Nat Nat) 4).1._waiters ∧
    (waitResume (wait (Event.new Nat Nat Nat) 4).1 4
        (Resumption.value (PyVal.obj 2))).1._waiters =
      (wait (Event.new Nat Nat Nat) 4).1._waiters.erase 4 ∧
    4 ∉ (waitResume (wait (Event.new Nat Nat Nat) 4).1 4
        (Resumption.value (PyVal.obj 2))).1._waiters :=
  wait_waiter_bookkeeping (Event.new Nat Nat Nat)
    (wait (Event.new Nat Nat Nat) 4).1 4 (Resumption.value (PyVal.obj 2)) rfl

/-- Claim C8: `poll(d)`, `poll_result(d)` and `poll_exception(d)` each
return the result of `wait()` when their respective guard (`ready()`,
`has_result()`, `has_exception()`) holds, and otherwise return the
default `d` with the state untouched; in particular, on an Unset Event
(`_result` the sentinel and `_exc` `None`, as in every reachable Unset
state) all three return `d` and leave the Event unchanged. -/
theorem poll_functions_guarded {α ε τ : Type} [DecidableEq τ]
    (s : EventState α ε τ) (t : τ) (d : PyVal α) :
    (ready s = true → poll s t d = wait s t) ∧
    (ready s = false → poll s t d = (s, WaitOutcome.ret d)) ∧
    (has_result s = true → poll_result s t d = wait s t) ∧
    (has_result s = false → poll_result s t d = (s, WaitOutcome.ret d)) ∧
    (has_exception s = true → poll_exception s t d = wait s t) ∧
    (has_exception s = false →
      poll_exception s t d = (s, WaitOutcome.ret d)) ∧
    (s._result = none → s._exc = none →
      poll s t d = (s, WaitOutcome.ret d) ∧
      poll_result s t d = (s, WaitOutcome.ret d) ∧
      poll_exception s t d = (s, WaitOutcome.ret d)) :=
  ⟨fun h => by simp [poll, h],
   fun h => by simp [poll, h],
   fun h => by simp [poll_result, h],
   fun h => by simp [poll_result, h],
   fun h => by simp [poll_exception, h],
   fun h => by simp [poll_exception, h],
   fun h1 h2 =>
     ⟨by simp [poll, ready, h1],
      by simp [poll_result, has_result, h1],
      by simp [poll_exception, has_exception, h2]⟩⟩

theorem poll_functions_guarded_witness :
    poll (Event.new Nat Nat Nat) 0 (PyVal.obj 8) =
      (Event.new Nat Nat Nat, WaitOutcome.ret (PyVal.obj 8)) ∧
    poll_result (Event.new Nat Nat Nat) 0 (PyVal.obj 8) =
      (Event.new Nat Nat Nat, WaitOutcome.ret (PyVal.obj 8)) ∧
    poll_exception (Event.new Nat Nat Nat) 0 (PyVal.obj 8) =
      (Event.new Nat Nat Nat, WaitOutcome.ret (PyVal.obj 8)) :=
  (poll_functions_guarded (Event.new Nat Nat Nat) 0
    (PyVal.obj 8)).2.2.2.2.2.2 rfl rfl

/-- In every reachable state, a stored exception implies a stored
result: `send` writes `_result` together with `_exc`, and `reset`
clears both, so `_exc` is never non-`None` while `_result` is still the
sentinel. -/
theorem reachable_exc_result {α ε τ : Type} [DecidableEq τ]
    {s : EventState α ε τ} (h : Reachable s) :
    s._exc.isSome = true → s._result.isSome = true := by
  induction h with
  | init => simp [Event.new]
  | send_step s' v e _ ih =>
    cases hr : s'._result with
    | none => simp [send, hr]
    | some w => simp [send, hr]
  | send_exception_step s' args _ ih =>
    cases hr : s'._result with
    | none => simp [send_exception, send, hr]
    | some w => simp [send_exception, send, hr]
  | reset_step s' _ ih =>
    cases hr : s'._result with
    | none => simpa [reset, hr] using ih
    | some w => simp [reset, hr]
  | wait_step s' t _ ih =>
    cases hr : s'._result with
    | none => simpa [wait, hr] using ih
    | some w =>
      cases he : s'._exc with
      | none => simp [wait, hr, he]
      | some es => simp [wait, hr, he]
  | wait_resume_step s' t r _ ih => simpa [waitResume] using ih

/-- Claim C9: in every state reachable through the public operations,
`ready()`, `has_result()` and `has_exception()` classify the outcome
mutually exclusively and exhaustively: `has_result()` and
`has_exception()` are never both true, `ready()` holds exactly when one
of them does, and when `ready()` is false both are false. -/
theorem readiness_classification {α ε τ : Type} [DecidableEq τ]
    (s : EventState α ε τ) (h : Reachable s) :
    ¬(has_result s = true ∧ has_exception s = true) ∧
    (ready s = true ↔ (has_result s = true ∨ has_exception s = true)) ∧
    (ready s = false → has_result s = false ∧ has_exception s = false) := by
  have hinv := reachable_exc_result h
  obtain ⟨r, ex, ws⟩ := s
  cases r <;> cases ex <;>
    simp [ready, has_result, has_exception] at hinv ⊢

theorem readiness_classification_witness :
    ¬(has_result (Event.new Nat Nat Nat) = true ∧
      has_exception (Event.new Nat Nat Nat) = true) ∧
    (ready (Event.new Nat Nat Nat) = true ↔
      (has_result (Event.new Nat Nat Nat) = true ∨
       has_exception (Event.new Nat Nat Nat) = true)) ∧
    (ready (Event.new Nat Nat Nat) = false →
      has_result (Event.new Nat Nat Nat) = false ∧
      has_exception (Event.new Nat Nat Nat) = false) :=
  readiness_classification (Event.new Nat Nat Nat) Reachable.init

/-- Claim C10: `send(v, e)` with a non-`None` error on an armed Event
behaves as delivered-with-error: `has_exception()` is true,
`has_result()` is false, and every subsequent `wait()` throws the
normalized error arguments — it never returns the supplied value v. -/
theorem send_with_error_overrides_value {α ε τ : Type} [DecidableEq τ]
    (s : EventState α ε τ) (v : PyVal α) (earg : ExcArg ε) (t : τ)
    (h : s._result = none) :
    has_exception (send s v (some earg)).state = true ∧
    has_result (send s v (some earg)).state = false ∧
    wait (send s v (some earg)).state t =
      ((send s v (some earg)).state,
        WaitOutcome.raise earg.toThrowArgs) ∧
    (wait (send s v (some earg)).state t).2 ≠ WaitOutcome.ret v := by
  obtain ⟨r, ex, ws⟩ := s
  subst h
  refine ⟨rfl, rfl, rfl, ?_⟩
  simp [wait, send, normalizeExc]

theorem send_with_error_overrides_value_witness :
    has_exception (send (Event.new Nat Nat Nat) (PyVal.obj 3)
      (some (ExcArg.single 7))).state = true ∧
    has_result (send (Event.new Nat Nat Nat) (PyVal.obj 3)
      (some (ExcArg.single 7))).state = false ∧
    wait (send (Event.new Nat Nat Nat) (PyVal.obj 3)
        (some (ExcArg.single 7))).state 0 =
      ((send (Event.new Nat Nat Nat) (PyVal.obj 3)
          (some (ExcArg.single 7))).state,
        WaitOutcome.raise (ExcArg.single 7).toThrowArgs) ∧
    (wait (send (Event.new Nat Nat Nat) (PyVal.obj 3)
        (some (ExcArg.single 7))).state 0).2 ≠
      WaitOutcome.ret (PyVal.obj 3) :=
  send_with_error_overrides_value (Event.new Nat Nat Nat) (PyVal.obj 3)
    (ExcArg.single 7) 0 rfl

end Eventlet
